import Mathlib

/-!
Verification of the x-card-maker profile-card pipeline.

This file shallowly embeds the claim-relevant parts of the repository:
`src/types.ts` (`TwitterProfileData`, `formatNumber`), `src/csvExporter.ts`
(`exportProfileData` and its CSV escaping), and `src/profileCardGenerator.ts`
(`generateCard`, the draw helpers, the greedy word wrap of `drawDescription`,
and `loadAssetsFromDirectory`).  Stateful canvas painting is modelled as an
explicit list of draw operations; the filesystem and image loader are modelled
as explicit environments; JavaScript numbers are modelled as `Int`/`ℚ` and
JavaScript strings as Lean `String`s.
-/

/-! ## JavaScript string primitives -/

/-- Model of JavaScript `str.split(sep)` for a single-character separator,
working on the character list.  `"".split(sep)` is `[""]`, matching JS. -/
def splitOnCharList (sep : Char) : List Char → List (List Char)
  | [] => [[]]
  | c :: rest =>
      let r := splitOnCharList sep rest
      if c = sep then [] :: r
      else
        match r with
        | [] => [[c]]
        | g :: gs => (c :: g) :: gs

/-- Model of JavaScript `String.prototype.split` with a one-character
separator. -/
def jsSplit (sep : Char) (s : String) : List String :=
  (splitOnCharList sep s.data).map String.mk

/-- Model of JavaScript `Array.prototype.join(',')`. -/
def joinComma : List String → String
  | [] => ""
  | [c] => c
  | c :: cs => c ++ "," ++ joinComma cs

/-- Numeric value of a list of decimal digit characters, most significant
first (the accumulator fold used when reading digit strings back). -/
def charsVal (cs : List Char) : Nat :=
  cs.foldl (fun a c => 10 * a + (c.toNat - 48)) 0

/-- Decimal digit characters of a natural number, most significant first
(`[]` for zero). -/
def natToDigits (n : Nat) : List Char :=
  if hz : n = 0 then [] else natToDigits (n / 10) ++ [Char.ofNat (48 + n % 10)]
decreasing_by exact Nat.div_lt_self (Nat.pos_of_ne_zero hz) (by norm_num)

/-- Decimal rendering of a natural number (model of JS `Number.toString` on
non-negative integers). -/
def natToString (n : Nat) : String :=
  if n = 0 then "0" else String.mk (natToDigits n)

theorem natToDigits_zero : natToDigits 0 = [] := by
  rw [natToDigits]; rfl

theorem natToDigits_pos (n : Nat) (h : ¬ n = 0) :
    natToDigits n = natToDigits (n / 10) ++ [Char.ofNat (48 + n % 10)] := by
  rw [natToDigits, dif_neg h]

/-- Model of JavaScript `Number.prototype.toString` on integers (used by
`String(value)` in the CSV exporter and `num.toString()` in `formatNumber`). -/
def jsIntToString : Int → String
  | Int.ofNat m => natToString m
  | Int.negSucc m => "-" ++ natToString (m + 1)

/-- Longest decimal-digit prefix of a character list, with its value;
`none` when there is no digit (the `NaN` case of `parseInt`). -/
def parseNatPrefix (cs : List Char) : Option Nat :=
  let ds := cs.takeWhile Char.isDigit
  if ds = [] then none else some (charsVal ds)

/-- Model of JavaScript `parseInt` restricted to the base-10 forms the CSV
pipeline produces: optional sign followed by a decimal-digit prefix;
`none` models `NaN`. -/
def parseIntJS (s : String) : Option Int :=
  match s.data with
  | [] => none
  | c :: rest =>
      if c = '-' then (parseNatPrefix rest).map (fun n => -(n : Int))
      else if c = '+' then (parseNatPrefix rest).map (fun n => (n : Int))
      else (parseNatPrefix (c :: rest)).map (fun n => (n : Int))

/-- Model of `parseInt(x) || 0` applied to a possibly-absent (`undefined`)
string: `NaN` and missing input both give `0` (and `0 || 0` is `0`). -/
def parseIntOr0 (s : Option String) : Int :=
  match s with
  | none => 0
  | some s => (parseIntJS s).getD 0

/-- Model of JavaScript `String.prototype.toUpperCase` for ASCII data. -/
def jsToUpper (s : String) : String :=
  String.mk (s.data.map (fun c =>
    if 97 ≤ c.toNat ∧ c.toNat ≤ 122 then Char.ofNat (c.toNat - 32) else c))

/-- Model of `timestamp.replace(/[:.]/g, '-')` from `generateCard`. -/
def sanitizeTimestamp (s : String) : String :=
  String.mk (s.data.map (fun c => if c = ':' ∨ c = '.' then '-' else c))

example : jsSplit ',' "a,b,," = ["a", "b", "", ""] := rfl
example : jsSplit '\n' "" = [""] := rfl
set_option maxRecDepth 4000

example : natToString 1507 = "1507" := by
  norm_num [natToString, natToDigits_pos, natToDigits_zero]
example : jsIntToString (-5) = "-5" := by
  rw [show (-5 : Int) = Int.negSucc 4 from rfl]
  norm_num [jsIntToString, natToString, natToDigits_pos, natToDigits_zero]
  rfl
example : parseIntJS "-42xyz" = some (-42) := rfl
example : parseIntJS "" = none := rfl
example : jsToUpper "jpeg" = "JPEG" := rfl
example : sanitizeTimestamp "12:34.5" = "12-34-5" := rfl

/-! ## Data model (`src/types.ts`) -/

/-- `TwitterProfileData` from `src/types.ts`: the parsed profile value.  The
constructor copying from the raw API `TwitterUser` is field-by-field, so the
class is embedded directly as a structure.  Counters are JS numbers holding
integers, modelled as `Int`. -/
structure TwitterProfileData where
  id : String
  name : String
  username : String
  description : String
  profileImageUrl : String
  profileBannerUrl : String
  verified : Bool
  followersCount : Int
  followingCount : Int
  tweetCount : Int
  listedCount : Int
  likeCount : Int
  mediaCount : Int
  subscribesToYou : Bool
  subscriptionType : String
deriving DecidableEq, Repr

/-- Round a rational to the nearest integer, ties to even (the rounding
used when a quotient is converted to an IEEE binary64 significand). -/
def roundHalfEven (s : ℚ) : ℤ :=
  if s - Int.floor s < 1/2 then Int.floor s
  else if 1/2 < s - Int.floor s then Int.floor s + 1
  else if Int.floor s % 2 = 0 then Int.floor s else Int.floor s + 1

/-- Round a positive rational to the nearest IEEE binary64 double (normal
range): normalise to the binade of `Int.log 2 q` and round the 53-bit
significand to nearest, ties to even.  This models the double produced by
the JavaScript divisions `num / 1000` and `num / 1000000`. -/
def roundToDouble (q : ℚ) : ℚ :=
  ((roundHalfEven (q * 2 ^ ((52:ℤ) - Int.log 2 q)) : ℚ)) * 2 ^ (Int.log 2 q - (52:ℤ))

/-- Model of `x.toFixed(1)` for the non-negative double `x = roundToDouble q`:
per ECMA-262, the rendered integer `n` is the one minimising `|n/10 - x|`,
the larger `n` on a tie — that is `n = floor(10x + 1/2)` — printed as
`n/10 "." n%10`. -/
def jsToFixed1 (q : ℚ) : String :=
  natToString ((Int.floor (10 * roundToDouble q + 1/2)).toNat / 10) ++ "."
    ++ natToString ((Int.floor (10 * roundToDouble q + 1/2)).toNat % 10)

/-- `formatNumber` from `TwitterProfileData` (`src/types.ts` lines 105-112):
the divisions `num / 1000000` and `num / 1000` happen in double precision
(`roundToDouble` inside `jsToFixed1`) before `toFixed(1)` renders them. -/
def formatNumber (num : Int) : String :=
  if 1000000 ≤ num then jsToFixed1 ((num : ℚ) / 1000000) ++ "M"
  else if 1000 ≤ num then jsToFixed1 ((num : ℚ) / 1000) ++ "K"
  else jsIntToString num

/-- `getFormattedFollowersCount` (`src/types.ts`). -/
def TwitterProfileData.getFormattedFollowersCount (pd : TwitterProfileData) : String :=
  formatNumber pd.followersCount

/-- `getFormattedFollowingCount` (`src/types.ts`). -/
def TwitterProfileData.getFormattedFollowingCount (pd : TwitterProfileData) : String :=
  formatNumber pd.followingCount

/-- `getFormattedTweetCount` (`src/types.ts`). -/
def TwitterProfileData.getFormattedTweetCount (pd : TwitterProfileData) : String :=
  formatNumber pd.tweetCount

/-- `CardAssets` from `src/types.ts` / `profileCardGenerator.ts`: profile data
plus optional resolved local image paths. -/
structure CardAssets where
  profileData : TwitterProfileData
  profileImagePath : Option String := none
  bannerImagePath : Option String := none
deriving DecidableEq, Repr

/-- `CardGenerationOptions` (the partial options record passed by callers;
`none` models an absent property). -/
structure CardGenerationOptions where
  width : Option Int := none
  height : Option Int := none
  backgroundColor : Option String := none
  textColor : Option String := none
  accentColor : Option String := none
  fontFamily : Option String := none
  showBanner : Option Bool := none
  showStats : Option Bool := none
  showDescription : Option Bool := none
  cardStyle : Option String := none
  outputFormat : Option String := none
  quality : Option Int := none
deriving DecidableEq, Repr

/-- `Required<CardGenerationOptions>`: the fully-defaulted options record
produced by `{ ...this.defaultOptions, ...options }`. -/
structure CardOptions where
  width : Int
  height : Int
  backgroundColor : String
  textColor : String
  accentColor : String
  fontFamily : String
  showBanner : Bool
  showStats : Bool
  showDescription : Bool
  cardStyle : String
  outputFormat : String
  quality : Int
deriving DecidableEq, Repr

/-- The spread `{ ...defaultOptions, ...options }` from `generateCard`, with
the `defaultOptions` literal of `ProfileCardGenerator`. -/
def mergeOptions (o : CardGenerationOptions) : CardOptions where
  width := o.width.getD 1200
  height := o.height.getD 630
  backgroundColor := o.backgroundColor.getD "#000000"
  textColor := o.textColor.getD "#ffffff"
  accentColor := o.accentColor.getD "#1d9bf0"
  fontFamily := o.fontFamily.getD "Arial, sans-serif"
  showBanner := o.showBanner.getD true
  showStats := o.showStats.getD true
  showDescription := o.showDescription.getD true
  cardStyle := o.cardStyle.getD "modern"
  outputFormat := o.outputFormat.getD "png"
  quality := o.quality.getD 90

/-- Pixel dimensions of a successfully loaded bitmap (`loadImage` result). -/
structure ImgDim where
  width : Int
  height : Int
deriving DecidableEq, Repr

/-- Ambient effects used by the generator: `loadImage` outcomes per path
(`none` = the load throws), `ctx.measureText` for the active 20px font,
`new Date().toISOString()`, `process.cwd()`, and whether `canvas.toBuffer`
succeeds. -/
structure Env where
  images : String → Option ImgDim
  meas : String → ℚ
  now : String
  cwd : String
  encodeOk : Bool

/-- One canvas paint operation, recording the arguments (and the fill/font
state active at the call) of each side-effecting context call. -/
inductive DrawOp where
  | fillRect (color : String) (x y w h : ℚ)
  | gradientRect (x y w h : ℚ)
  | image (path : String) (x y w h : ℚ)
  | circleImage (path : String) (x y size : ℚ)
  | circleStroke (color : String) (lineWidth x y size : ℚ)
  | text (s : String) (x y : ℚ) (font : String) (color : String)
deriving DecidableEq, Repr

/-- The `y` argument of a draw operation. -/
def DrawOp.opY : DrawOp → ℚ
  | .fillRect _ _ y _ _ => y
  | .gradientRect _ y _ _ => y
  | .image _ _ y _ _ => y
  | .circleImage _ _ y _ => y
  | .circleStroke _ _ _ y _ => y
  | .text _ _ y _ _ => y

/-- Whether an operation paints the banner band: only `drawBanner` emits
`drawImage`-on-context or the gradient overlay. -/
def DrawOp.isBannerOp : DrawOp → Bool
  | .image _ _ _ _ _ => true
  | .gradientRect _ _ _ _ => true
  | _ => false

/-! ## CSV exporter (`src/csvExporter.ts`) -/

/-- `escapeCSVField` from `src/csvExporter.ts`: wrap in quotes (doubling
inner quotes) when the value contains a comma, newline, or quote. -/
def escapeCSVField (s : String) : String :=
  if ',' ∈ s.data ∨ '\n' ∈ s.data ∨ '"' ∈ s.data then
    "\"" ++ String.mk (s.data.flatMap (fun c => if c = '"' then ['"', '"'] else [c])) ++ "\""
  else s

/-- Cell written for a boolean field: `escapeCSVField(row[h] || '')` maps
`false` to `''` and `true` to `String(true)`. -/
def boolCell (b : Bool) : String :=
  if b then escapeCSVField "true" else escapeCSVField ""

/-- Cell written for an integer counter: the `|| ''` turns `0` into `''`;
other values render via `String(value)`. -/
def intCell (n : Int) : String :=
  if n = 0 then escapeCSVField "" else escapeCSVField (jsIntToString n)

/-- The cells of the single data row written by `exportProfileData`, in the
key order of `TwitterProfileData.toCSVRow` (`src/types.ts` lines 143-162);
`now` is the `created_at` ISO timestamp. -/
def toCSVRowCells (pd : TwitterProfileData) (now : String) : List String :=
  [escapeCSVField pd.id, escapeCSVField pd.name, escapeCSVField pd.username,
   escapeCSVField pd.description, boolCell pd.verified,
   intCell pd.followersCount, intCell pd.followingCount, intCell pd.tweetCount,
   intCell pd.listedCount, intCell pd.likeCount, intCell pd.mediaCount,
   boolCell pd.subscribesToYou, escapeCSVField pd.subscriptionType,
   escapeCSVField pd.profileImageUrl, escapeCSVField pd.profileBannerUrl,
   escapeCSVField now]

/-- The header row cells of `createCSVContent` (the keys of `toCSVRow`). -/
def csvHeaderCells : List String :=
  ["id", "name", "username", "description", "verified", "followers_count",
   "following_count", "tweet_count", "listed_count", "like_count",
   "media_count", "subscribes_to_you", "subscription_type",
   "profile_image_url", "profile_banner_url", "created_at"]

/-- `createCSVContent` for the one-row case used by `exportProfileData`:
`[headerRow, dataRow].join('\n') + '\n'`. -/
def createCSVContent (cells : List String) : String :=
  joinComma csvHeaderCells ++ "\n" ++ joinComma cells ++ "\n"

/-- The CSV file content produced by `CSVExporter.exportProfileData`
(`src/csvExporter.ts` lines 21-34). -/
def exportProfileDataContent (pd : TwitterProfileData) (now : String) : String :=
  createCSVContent (toCSVRowCells pd now)

/-- The path `exportProfileData` writes to: `userDir/username_data.csv`. -/
def exportCsvPath (userDir username : String) : String :=
  userDir ++ "/" ++ username ++ "_data.csv"

/-! ## Asset resolver (`loadAssetsFromDirectory`) -/

/-- The per-user slice of the filesystem seen by `loadAssetsFromDirectory`:
the contents of `username_data.csv` (if present) and whether the two
conventional image files exist. -/
structure UserDirFS where
  csv : Option String
  avatarExists : Bool
  bannerExists : Bool
deriving DecidableEq, Repr

/-- `loadAssetsFromDirectory` (`src/profileCardGenerator.ts` lines 312-368):
reads `userDir/username_data.csv`, splits the first two lines, extracts the
fields at fixed ordinals with `|| ''` / `=== 'true'` / `parseInt(..) || 0`
defaults, then independently checks the two image files.  A missing file or a
content with no second line (an out-of-bounds `lines[1]` makes the subsequent
`.split` throw) is the caught-and-rethrown error path. -/
def loadAssetsFromDirectory (fs : UserDirFS) (username : String)
    (downloadsDir : String) : Except String CardAssets :=
  let userDir := downloadsDir ++ "/" ++ username
  match fs.csv with
  | none => .error ("Failed to load profile data for " ++ username)
  | some content =>
    let lines := jsSplit '\n' content
    match lines.get? 1 with
    | none => .error ("Failed to load profile data for " ++ username)
    | some second =>
      let data := jsSplit ',' second
      let get : Nat → String := fun i => (data.get? i).getD ""
      let pd : TwitterProfileData :=
        { id := get 0
          name := get 1
          username := get 2
          description := get 3
          profileImageUrl := get 13
          profileBannerUrl := get 14
          verified := data.get? 4 == some "true"
          followersCount := parseIntOr0 (data.get? 5)
          followingCount := parseIntOr0 (data.get? 6)
          tweetCount := parseIntOr0 (data.get? 7)
          listedCount := parseIntOr0 (data.get? 8)
          likeCount := parseIntOr0 (data.get? 9)
          mediaCount := parseIntOr0 (data.get? 10)
          subscribesToYou := data.get? 11 == some "true"
          subscriptionType := get 12 }
      .ok { profileData := pd
            profileImagePath :=
              if fs.avatarExists then some (userDir ++ "/profile_image.jpg") else none
            bannerImagePath :=
              if fs.bannerExists then some (userDir ++ "/banner_image.jpg") else none }

/-! ## Card layout engine (`src/profileCardGenerator.ts`) -/

/-- `Math.floor(options.height * 0.4)`: the banner-band height used by every
banner-relative vertical offset (the double `0.4` is modelled as `2/5`). -/
def bannerBandHeight (opts : CardOptions) : ℤ :=
  Int.floor ((opts.height : ℚ) * (2 / 5))

/-- `drawBackground` (lines 121-124). -/
def drawBackground (opts : CardOptions) : List DrawOp :=
  [.fillRect opts.backgroundColor 0 0 (opts.width : ℚ) (opts.height : ℚ)]

/-- `drawBanner` (lines 129-157): a failed `loadImage` is caught and logged,
emitting no operation; otherwise the banner is scaled to the band height
preserving aspect ratio, centred, and overlaid with the gradient. -/
def drawBanner (env : Env) (bannerPath : String) (opts : CardOptions) : List DrawOp :=
  match env.images bannerPath with
  | none => []
  | some img =>
      let bannerHeight : ℚ := ((bannerBandHeight opts : ℤ) : ℚ)
      let aspectRatio : ℚ := (img.width : ℚ) / (img.height : ℚ)
      let bannerWidth : ℚ := bannerHeight * aspectRatio
      let x : ℚ := ((opts.width : ℚ) - bannerWidth) / 2
      [.image bannerPath x 0 bannerWidth bannerHeight,
       .gradientRect 0 0 (opts.width : ℚ) bannerHeight]

/-- `drawProfileImage` (lines 162-191): a failed `loadImage` is caught and
logged; otherwise the avatar is drawn as a 120px circular crop at x = 60 and
y = (band height − 60) when `showBanner` is set, else y = 60, with a 4px
background-coloured ring. -/
def drawProfileImage (env : Env) (profilePath : String) (opts : CardOptions) : List DrawOp :=
  match env.images profilePath with
  | none => []
  | some _ =>
      let y : ℚ := if opts.showBanner then ((bannerBandHeight opts : ℤ) : ℚ) - 60 else 60
      [.circleImage profilePath 60 y 120,
       .circleStroke opts.backgroundColor 4 60 y 120]

/-- `drawProfileInfo` (lines 196-224). -/
def drawProfileInfo (pd : TwitterProfileData) (opts : CardOptions) : List DrawOp :=
  let startY : ℚ := if opts.showBanner then ((bannerBandHeight opts : ℤ) : ℚ) + 20 else 200
  [.text pd.name 60 startY ("bold 36px " ++ opts.fontFamily) opts.textColor,
   .text ("@" ++ pd.username) 60 (startY + 50) ("28px " ++ opts.fontFamily) "#71767b"]
  ++ (if pd.verified then
        [.text "✓ Verified" 60 (startY + 90) ("24px " ++ opts.fontFamily) opts.accentColor]
      else [])

/-- `drawStats` (lines 229-265). -/
def drawStats (pd : TwitterProfileData) (opts : CardOptions) : List DrawOp :=
  let startY : ℚ := if opts.showBanner then ((bannerBandHeight opts : ℤ) : ℚ) + 200 else 400
  [.text pd.getFormattedFollowersCount 60 startY ("bold 24px " ++ opts.fontFamily) opts.textColor,
   .text "Followers" 60 (startY + 30) ("18px " ++ opts.fontFamily) "#71767b",
   .text pd.getFormattedFollowingCount 180 startY ("bold 24px " ++ opts.fontFamily) opts.textColor,
   .text "Following" 180 (startY + 30) ("18px " ++ opts.fontFamily) "#71767b",
   .text pd.getFormattedTweetCount 300 startY ("bold 24px " ++ opts.fontFamily) opts.textColor,
   .text "Tweets" 300 (startY + 30) ("18px " ++ opts.fontFamily) "#71767b"]

/-- The word-accumulation loop of `drawDescription` (lines 288-303): flush
the current line when adding the next word would exceed `maxWidth` and the
line is non-empty; flush the trailing line if non-empty. -/
def wrapLoop (meas : String → ℚ) (maxWidth : ℚ) : List String → String → List String
  | [], line => if line ≠ "" then [line] else []
  | w :: ws, line =>
      let testLine := line ++ w ++ " "
      if maxWidth < meas testLine ∧ line ≠ "" then
        line :: wrapLoop meas maxWidth ws (w ++ " ")
      else wrapLoop meas maxWidth ws testLine

/-- The emitted lines of `drawDescription`, starting from the empty line. -/
def wrapLines (meas : String → ℚ) (maxWidth : ℚ) (words : List String) : List String :=
  wrapLoop meas maxWidth words ""

/-- The starting vertical offset of the description block. -/
def descStartY (opts : CardOptions) : ℚ :=
  if opts.showBanner then ((bannerBandHeight opts : ℤ) : ℚ) + 300 else 500

/-- `drawDescription` (lines 270-304): split on single spaces, wrap greedily
against `maxWidth = width - 120`, draw each emitted line at x = 60 advancing
`currentY` by 30 per flushed line. -/
def drawDescription (meas : String → ℚ) (description : String) (opts : CardOptions) : List DrawOp :=
  let L := wrapLines meas ((opts.width : ℚ) - 120) (jsSplit ' ' description)
  L.enum.map (fun p =>
    .text p.2 60 (descStartY opts + 30 * (p.1 : ℚ)) ("20px " ++ opts.fontFamily) opts.textColor)

/-- The full paint sequence of `generateCard` (lines 45-71), in compositing
order, with the conditional guards of the source (`opts.showBanner &&
assets.bannerImagePath`, truthiness of paths and of the description). -/
def renderOps (env : Env) (assets : CardAssets) (opts : CardOptions) : List DrawOp :=
  drawBackground opts
  ++ (match assets.bannerImagePath with
      | some bp => if opts.showBanner then drawBanner env bp opts else []
      | none => [])
  ++ (match assets.profileImagePath with
      | some pp => drawProfileImage env pp opts
      | none => [])
  ++ drawProfileInfo assets.profileData opts
  ++ (if opts.showStats then drawStats assets.profileData opts else [])
  ++ (if opts.showDescription ∧ assets.profileData.description ≠ "" then
        drawDescription env.meas assets.profileData.description opts
      else [])

/-- The byte buffer returned by `canvas.toBuffer()`: called with no MIME
type, node-canvas always produces a PNG encoding of the canvas contents. -/
structure Buffer where
  encoding : String
  width : Int
  height : Int
  ops : List DrawOp
deriving DecidableEq, Repr

/-- `cardInfo` of a successful `CardGenerationResult`. -/
structure CardInfo where
  width : Int
  height : Int
  fileSize : Int
  format : String
deriving DecidableEq, Repr

/-- `CardGenerationResult` (`src/types.ts` via `generateCard`). -/
structure CardGenerationResult where
  success : Bool
  outputPath : Option String := none
  cardInfo : Option CardInfo := none
  error : Option String := none
deriving DecidableEq, Repr

/-- The default output path of `generateCard` (lines 74-79):
`cwd/downloads/username/username_card_TIMESTAMP.ext`. -/
def defaultOutputPath (env : Env) (username : String) (opts : CardOptions) : String :=
  let extension := if opts.outputFormat = "jpeg" then "jpg" else "png"
  env.cwd ++ "/downloads/" ++ username ++ "/" ++ username ++ "_card_"
    ++ sanitizeTimestamp env.now ++ "." ++ extension

/-- The modelled size of the written file (`fs.stat(outputPath).size`). -/
def bufferSize (buf : Buffer) : Int :=
  (buf.ops.length : Int)

/-- `generateCard` (`src/profileCardGenerator.ts` lines 32-107): the whole
body runs inside `try/catch`, so the function returns either a success
result (with the file written) or a failure result with a message.  Canvas
allocation fails on non-positive dimensions; `toBuffer` fails when the
environment says encoding fails.  The second component is the list of files
written. -/
def generateCard (env : Env) (assets : CardAssets) (options : CardGenerationOptions)
    (outputPath : Option String) : CardGenerationResult × List (String × Buffer) :=
  let opts := mergeOptions options
  if opts.width ≤ 0 ∨ opts.height ≤ 0 then
    ({ success := false, error := some "Invalid canvas dimensions" }, [])
  else
    let ops := renderOps env assets opts
    let outPath :=
      match outputPath with
      | some p => p
      | none => defaultOutputPath env assets.profileData.username opts
    if env.encodeOk then
      let buf : Buffer := { encoding := "png", width := opts.width, height := opts.height, ops := ops }
      ({ success := true
         outputPath := some outPath
         cardInfo := some { width := opts.width, height := opts.height
                            fileSize := bufferSize buf
                            format := jsToUpper opts.outputFormat } }, [(outPath, buf)])
    else
      ({ success := false, error := some "Failed to encode canvas" }, [])

/-! ## Digit-string lemmas -/

theorem char_ofNat_digit_isDigit (d : Nat) (hd : d < 10) :
    (Char.ofNat (48 + d)).isDigit = true := by
  interval_cases d <;> decide

theorem char_ofNat_digit_ne (d : Nat) (hd : d < 10) :
    Char.ofNat (48 + d) ≠ 'K' ∧ Char.ofNat (48 + d) ≠ 'M' ∧
    Char.ofNat (48 + d) ≠ ',' ∧ Char.ofNat (48 + d) ≠ '"' ∧
    Char.ofNat (48 + d) ≠ '\n' := by
  interval_cases d <;> exact ⟨by decide, by decide, by decide, by decide, by decide⟩

theorem natToDigits_isDigit (n : Nat) :
    ∀ c ∈ natToDigits n, c.isDigit = true := by
  induction n using Nat.strong_induction_on with
  | _ n ih =>
    intro c hc
    by_cases h0 : n = 0
    · rw [natToDigits, dif_pos h0] at hc; simp at hc
    · rw [natToDigits, dif_neg h0] at hc
      rcases List.mem_append.1 hc with h | h
      · exact ih _ (Nat.div_lt_self (Nat.pos_of_ne_zero h0) (by norm_num)) c h
      · rcases List.mem_singleton.1 h with rfl
        exact char_ofNat_digit_isDigit _ (Nat.mod_lt _ (by norm_num))

theorem charsVal_append_digit (xs : List Char) (c : Char) :
    charsVal (xs ++ [c]) = 10 * charsVal xs + (c.toNat - 48) := by
  simp [charsVal, List.foldl_append]

theorem charsVal_natToDigits (n : Nat) : charsVal (natToDigits n) = n := by
  induction n using Nat.strong_induction_on with
  | _ n ih =>
    by_cases h0 : n = 0
    · rw [natToDigits, dif_pos h0]; simp [charsVal, h0]
    · rw [natToDigits, dif_neg h0, charsVal_append_digit,
        ih _ (Nat.div_lt_self (Nat.pos_of_ne_zero h0) (by norm_num))]
      have hlt : n % 10 < 10 := Nat.mod_lt _ (by norm_num)
      have htn : (Char.ofNat (48 + n % 10)).toNat = 48 + n % 10 := by
        interval_cases h : n % 10 <;> simp_all
      rw [htn]
      omega

theorem natToDigits_ne_nil (n : Nat) (h0 : n ≠ 0) : natToDigits n ≠ [] := by
  rw [natToDigits, dif_neg h0]
  simp

theorem isDigit_ne_special (c : Char) (h : c.isDigit = true) :
    c ≠ ',' ∧ c ≠ '"' ∧ c ≠ '\n' ∧ c ≠ 'K' ∧ c ≠ 'M' ∧ c ≠ '-' ∧ c ≠ '+' := by
  refine ⟨?_, ?_, ?_, ?_, ?_, ?_, ?_⟩ <;> rintro rfl <;> exact absurd h (by decide)

theorem takeWhile_of_all {p : Char → Bool} (l : List Char) (h : ∀ c ∈ l, p c = true) :
    l.takeWhile p = l := by
  induction l with
  | nil => rfl
  | cons c cs ih =>
    rw [List.takeWhile_cons, h c (List.mem_cons_self c cs)]
    simp [ih (fun d hd => h d (List.mem_cons_of_mem c hd))]

theorem parseNatPrefix_natToDigits (n : Nat) (h0 : n ≠ 0) :
    parseNatPrefix (natToDigits n) = some n := by
  rw [parseNatPrefix]
  rw [takeWhile_of_all _ (natToDigits_isDigit n)]
  simp [natToDigits_ne_nil n h0, charsVal_natToDigits]

theorem natToString_data (n : Nat) :
    (natToString n).data = if n = 0 then ['0'] else natToDigits n := by
  by_cases h : n = 0
  · subst h; rfl
  · rw [if_neg h, natToString, if_neg h]

theorem natToString_isDigit (n : Nat) :
    ∀ c ∈ (natToString n).data, c.isDigit = true := by
  rw [natToString_data]
  by_cases h : n = 0
  · simp [h]
  · rw [if_neg h]; exact natToDigits_isDigit n

theorem parseIntJS_natToString (n : Nat) : parseIntJS (natToString n) = some n := by
  by_cases h0 : n = 0
  · subst h0; decide
  · obtain ⟨d, ds, hcons⟩ := List.exists_cons_of_ne_nil (natToDigits_ne_nil n h0)
    have hdata : (natToString n).data = d :: ds := by
      rw [natToString_data, if_neg h0, hcons]
    have hd : d.isDigit = true := by
      refine natToDigits_isDigit n d ?_
      rw [hcons]; exact List.mem_cons_self d ds
    obtain ⟨-, -, -, -, -, hne1, hne2⟩ := isDigit_ne_special d hd
    rw [parseIntJS, hdata]
    simp only [hne1, hne2, if_false]
    rw [← hcons, parseNatPrefix_natToDigits n h0]
    simp

theorem parseIntJS_jsIntToString (n : Int) : parseIntJS (jsIntToString n) = some n := by
  cases n with
  | ofNat m => exact parseIntJS_natToString m
  | negSucc m =>
    have hdata : (jsIntToString (Int.negSucc m)).data = '-' :: (natToString (m + 1)).data := by
      show (("-" : String) ++ natToString (m + 1)).data = _
      rw [String.data_append]
      rfl
    rw [parseIntJS, hdata]
    simp only [if_pos rfl]
    rw [natToString_data, if_neg (Nat.succ_ne_zero m), parseNatPrefix_natToDigits _ (Nat.succ_ne_zero m)]
    simp [Int.negSucc_eq]

theorem natToString_single_digit (d : Nat) (hd : d < 10) :
    (natToString d).data.length = 1 := by
  rw [natToString_data]
  by_cases h : d = 0
  · simp [h]
  · rw [if_neg h, natToDigits_pos d h, Nat.div_eq_of_lt hd, natToDigits_zero]
    rfl

theorem roundHalfEven_err (s : ℚ) : |(roundHalfEven s : ℚ) - s| ≤ 1/2 := by
  have h1 : (Int.floor s : ℚ) ≤ s := Int.floor_le s
  have h2 : s < Int.floor s + 1 := Int.lt_floor_add_one s
  rw [roundHalfEven]
  by_cases h3 : s - Int.floor s < 1/2
  · rw [if_pos h3, abs_le]; constructor <;> linarith
  · rw [if_neg h3]
    push_neg at h3
    by_cases h4 : 1/2 < s - Int.floor s
    · rw [if_pos h4, abs_le]; constructor <;> push_cast <;> linarith
    · rw [if_neg h4]
      push_neg at h4
      by_cases h5 : Int.floor s % 2 = 0
      · rw [if_pos h5, abs_le]; constructor <;> linarith
      · rw [if_neg h5, abs_le]; constructor <;> push_cast <;> linarith

theorem roundToDouble_err (q : ℚ) :
    |roundToDouble q - q| ≤ (2:ℚ) ^ (Int.log 2 q - 53) := by
  have hpow : (0:ℚ) < (2:ℚ) ^ (Int.log 2 q - (52:ℤ)) := by positivity
  have he : roundToDouble q - q
      = ((roundHalfEven (q * 2 ^ ((52:ℤ) - Int.log 2 q)) : ℚ)
          - q * 2 ^ ((52:ℤ) - Int.log 2 q)) * 2 ^ (Int.log 2 q - (52:ℤ)) := by
    rw [roundToDouble]
    have hq : q * 2 ^ ((52:ℤ) - Int.log 2 q) * 2 ^ (Int.log 2 q - (52:ℤ)) = q := by
      rw [mul_assoc, ← zpow_add₀ (by norm_num : (2:ℚ) ≠ 0)]
      norm_num
    rw [sub_mul, hq]
  rw [he, abs_mul, abs_of_pos hpow]
  have h1 := roundHalfEven_err (q * 2 ^ ((52:ℤ) - Int.log 2 q))
  have h2 : (2:ℚ) ^ (Int.log 2 q - 53) = (1/2) * 2 ^ (Int.log 2 q - (52:ℤ)) := by
    rw [show Int.log 2 q - 53 = (-1) + (Int.log 2 q - (52:ℤ)) from by ring,
      zpow_add₀ (by norm_num : (2:ℚ) ≠ 0)]
    norm_num
  rw [h2]
  exact mul_le_mul_of_nonneg_right h1 (le_of_lt hpow)

theorem int_log2_le (q : ℚ) (k : ℤ) (hq : 0 < q) (h : q < (2:ℚ) ^ (k + 1)) :
    Int.log 2 q ≤ k := by
  by_contra hc
  push_neg at hc
  have h1 : (2:ℚ) ^ (k + 1) ≤ (2:ℚ) ^ (Int.log 2 q) := zpow_le_zpow_right₀ one_le_two hc
  have h2 := Int.zpow_log_le_self (b := 2) one_lt_two hq
  push_cast at h2
  linarith

theorem int_log2_eq (q : ℚ) (e : ℤ) (hq : 0 < q) (h1 : (2:ℚ) ^ e ≤ q)
    (h2 : q < (2:ℚ) ^ (e + 1)) : Int.log 2 q = e := by
  have hle := int_log2_le q e hq h2
  by_contra hc
  have hlt : Int.log 2 q < e := lt_of_le_of_ne hle hc
  have h3 : q < (2:ℚ) ^ (Int.log 2 q + 1) := by
    have h4 := Int.lt_zpow_succ_log_self (b := 2) one_lt_two q
    push_cast at h4
    exact h4
  have h5 : (2:ℚ) ^ (Int.log 2 q + 1) ≤ (2:ℚ) ^ e := zpow_le_zpow_right₀ one_le_two (by omega)
  linarith

theorem floor_round_shift (q : ℚ) (K : ℤ) (r d B : ℚ)
    (hq_eq : 10 * q + 1/2 = K + r)
    (hr1 : 1/B ≤ r) (hr2 : r ≤ 1 - 1/B)
    (herr : |roundToDouble q - q| ≤ d) (hd : 10 * d < 1/B) (hB : 0 < B) :
    Int.floor (10 * roundToDouble q + 1/2) = K := by
  rw [abs_le] at herr
  have hBinv : 0 < 1/B := by positivity
  rw [Int.floor_eq_iff]
  constructor
  · linarith [herr.1, herr.2]
  · linarith [herr.1, herr.2]

theorem digitK (c K R : ℕ) (h1 : 1000 ≤ c) (h2 : c < 1000000)
    (hKR : c + 50 = 100 * K + R) (hR1 : 1 ≤ R) (hR2 : R ≤ 99) :
    Int.floor (10 * roundToDouble ((c:ℚ) / 1000) + 1/2) = (K : ℤ) := by
  have hc1 : (1000:ℚ) ≤ (c:ℚ) := by exact_mod_cast h1
  have hc2 : (c:ℚ) < 1000000 := by exact_mod_cast h2
  have hqpos : (0:ℚ) < (c:ℚ) / 1000 := by linarith [hc1]
  have hcast : (c:ℚ) + 50 = 100 * (K:ℚ) + (R:ℚ) := by exact_mod_cast hKR
  have hR1q : (1:ℚ) ≤ (R:ℚ) := by exact_mod_cast hR1
  have hR2q : (R:ℚ) ≤ 99 := by exact_mod_cast hR2
  have herr : |roundToDouble ((c:ℚ) / 1000) - (c:ℚ) / 1000| ≤ (2:ℚ) ^ (-44:ℤ) := by
    have he9 : Int.log 2 ((c:ℚ) / 1000) ≤ 9 := by
      refine int_log2_le _ _ hqpos ?_
      rw [div_lt_iff₀ (by norm_num : (0:ℚ) < 1000)]
      norm_num
      linarith
    calc |roundToDouble ((c:ℚ) / 1000) - (c:ℚ) / 1000|
        ≤ (2:ℚ) ^ (Int.log 2 ((c:ℚ) / 1000) - 53) := roundToDouble_err _
      _ ≤ (2:ℚ) ^ (-44:ℤ) := zpow_le_zpow_right₀ one_le_two (by omega)
  refine floor_round_shift ((c:ℚ) / 1000) (K:ℤ) ((R:ℚ) / 100)
    ((2:ℚ) ^ (-44:ℤ)) 100 ?_ ?_ ?_ herr (by norm_num) (by norm_num)
  · push_cast
    field_simp
    linarith [hcast]
  · rw [div_le_div_iff₀] <;> norm_num
    linarith [hR1q]
  · rw [div_le_iff₀ (by norm_num : (0:ℚ) < 100)]
    norm_num
    linarith [hR2q]

theorem digitM (c K R : ℕ) (h1 : 1000000 ≤ c) (h2 : c < 2 ^ 53)
    (hKR : c + 50000 = 100000 * K + R) (hR1 : 1 ≤ R) (hR2 : R ≤ 99999) :
    Int.floor (10 * roundToDouble ((c:ℚ) / 1000000) + 1/2) = (K : ℤ) := by
  have hc1 : (1000000:ℚ) ≤ (c:ℚ) := by exact_mod_cast h1
  have hc2 : (c:ℚ) < 9007199254740992 := by
    have h3 : c < 9007199254740992 := by omega
    exact_mod_cast h3
  have hqpos : (0:ℚ) < (c:ℚ) / 1000000 := by linarith [hc1]
  have hcast : (c:ℚ) + 50000 = 100000 * (K:ℚ) + (R:ℚ) := by exact_mod_cast hKR
  have hR1q : (1:ℚ) ≤ (R:ℚ) := by exact_mod_cast hR1
  have hR2q : (R:ℚ) ≤ 99999 := by exact_mod_cast hR2
  have herr : |roundToDouble ((c:ℚ) / 1000000) - (c:ℚ) / 1000000| ≤ (2:ℚ) ^ (-20:ℤ) := by
    have he33 : Int.log 2 ((c:ℚ) / 1000000) ≤ 33 := by
      refine int_log2_le _ _ hqpos ?_
      rw [div_lt_iff₀ (by norm_num : (0:ℚ) < 1000000)]
      norm_num
      linarith
    calc |roundToDouble ((c:ℚ) / 1000000) - (c:ℚ) / 1000000|
        ≤ (2:ℚ) ^ (Int.log 2 ((c:ℚ) / 1000000) - 53) := roundToDouble_err _
      _ ≤ (2:ℚ) ^ (-20:ℤ) := zpow_le_zpow_right₀ one_le_two (by omega)
  refine floor_round_shift ((c:ℚ) / 1000000) (K:ℤ) ((R:ℚ) / 100000)
    ((2:ℚ) ^ (-20:ℤ)) 100000 ?_ ?_ ?_ herr (by norm_num) (by norm_num)
  · push_cast
    field_simp
    linarith [hcast]
  · rw [div_le_div_iff₀] <;> norm_num
    linarith [hR1q]
  · rw [div_le_iff₀ (by norm_num : (0:ℚ) < 100000)]
    norm_num
    linarith [hR2q]

/-- C5 (amended): `formatNumber` returns the plain integer string below
1000; between 1000 and 1000000 it renders the double-precision quotient
`c / 1000` to exactly one decimal digit followed by `"K"` (1000 renders as
`"1.0K"`), and from 1000000 up the quotient by 1000000 followed by `"M"`.
Whenever the scaled count is not an exact decimal tie (`c % 100 ≠ 50` for
the K branch and, for counts exactly representable as doubles,
`c % 100000 ≠ 50000` for the M branch) the rendered digit equals the exact
quotient rounded to one decimal; at exact ties the digit follows the
binary64 rounding of the quotient instead. -/
theorem formatNumber_spec (c : Nat) :
    (c < 1000 → formatNumber (c : Int) = natToString c)
    ∧ (1000 ≤ c → c < 1000000 →
        (∃ n : Nat, formatNumber (c : Int)
            = natToString (n / 10) ++ "." ++ natToString (n % 10) ++ "K"
          ∧ (natToString (n % 10)).data.length = 1)
        ∧ (c % 100 ≠ 50 →
            formatNumber (c : Int)
              = natToString ((c + 50) / 100 / 10) ++ "."
                ++ natToString ((c + 50) / 100 % 10) ++ "K"))
    ∧ (1000000 ≤ c →
        (∃ n : Nat, formatNumber (c : Int)
            = natToString (n / 10) ++ "." ++ natToString (n % 10) ++ "M"
          ∧ (natToString (n % 10)).data.length = 1)
        ∧ (c < 2 ^ 53 → c % 100000 ≠ 50000 →
            formatNumber (c : Int)
              = natToString ((c + 50000) / 100000 / 10) ++ "."
                ++ natToString ((c + 50000) / 100000 % 10) ++ "M")) := by
  refine ⟨?_, ?_, ?_⟩
  · intro h
    have h1 : ¬ ((1000000 : Int) ≤ (c : Int)) := by exact_mod_cast by omega
    have h2 : ¬ ((1000 : Int) ≤ (c : Int)) := by exact_mod_cast by omega
    rw [formatNumber, if_neg h1, if_neg h2]
    rfl
  · intro hlo hhi
    have h1 : ¬ ((1000000 : Int) ≤ (c : Int)) := by exact_mod_cast by omega
    have h2 : (1000 : Int) ≤ (c : Int) := by exact_mod_cast hlo
    have hKeq : formatNumber (c : Int) = jsToFixed1 ((c:ℚ) / 1000) ++ "K" := by
      rw [formatNumber, if_neg h1, if_pos h2, Int.cast_natCast]
    constructor
    · refine ⟨(Int.floor (10 * roundToDouble ((c:ℚ) / 1000) + 1/2)).toNat, ?_,
        natToString_single_digit _ (Nat.mod_lt _ (by norm_num))⟩
      rw [hKeq]
      rfl
    · intro h50
      rw [hKeq, jsToFixed1,
        digitK c ((c + 50) / 100) ((c + 50) % 100) hlo hhi (by omega) (by omega) (by omega),
        Int.toNat_natCast]
  · intro hlo
    have h1 : (1000000 : Int) ≤ (c : Int) := by exact_mod_cast hlo
    have hMeq : formatNumber (c : Int) = jsToFixed1 ((c:ℚ) / 1000000) ++ "M" := by
      rw [formatNumber, if_pos h1, Int.cast_natCast]
    constructor
    · refine ⟨(Int.floor (10 * roundToDouble ((c:ℚ) / 1000000) + 1/2)).toNat, ?_,
        natToString_single_digit _ (Nat.mod_lt _ (by norm_num))⟩
      rw [hMeq]
      rfl
    · intro h53 h50
      rw [hMeq, jsToFixed1,
        digitM c ((c + 50000) / 100000) ((c + 50000) % 100000) hlo h53
          (by omega) (by omega) (by omega),
        Int.toNat_natCast]

/-- Witness for amended C5 at the spec's example inputs. -/
theorem formatNumber_spec_witness :
    formatNumber ((999 : Nat) : Int) = "999"
    ∧ formatNumber ((1200 : Nat) : Int) = "1.2K"
    ∧ formatNumber ((2500000 : Nat) : Int) = "2.5M"
    ∧ formatNumber ((1000 : Nat) : Int) = "1.0K" := by
  refine ⟨?_, ?_, ?_, ?_⟩
  · rw [(formatNumber_spec 999).1 (by norm_num)]
    norm_num [natToString, natToDigits_pos, natToDigits_zero]
  · rw [((formatNumber_spec 1200).2.1 (by norm_num) (by norm_num)).2 (by norm_num)]
    norm_num [natToString, natToDigits_pos, natToDigits_zero]
    rfl
  · rw [((formatNumber_spec 2500000).2.2 (by norm_num)).2 (by norm_num) (by norm_num)]
    norm_num [natToString, natToDigits_pos, natToDigits_zero]
    rfl
  · rw [((formatNumber_spec 1000).2.1 (by norm_num) (by norm_num)).2 (by norm_num)]
    norm_num [natToString, natToDigits_pos, natToDigits_zero]
    rfl

/-- C5 counterexample: at the exact decimal ties the rendered digit is not
the exactly-rounded quotient under any fixed tie rule: 1150/1000 rounds to
the double just below 1.15 and renders `"1.1K"` (exact half-up predicts
`"1.2K"`, since (1150+50)/100 = 12), while 1250/1000 is exactly
representable and `toFixed` renders `"1.3K"` (exact half-down would predict
`"1.2K"`). -/
theorem formatNumber_tie_counterexample :
    formatNumber ((1150 : Nat) : Int) = "1.1K"
    ∧ formatNumber ((1250 : Nat) : Int) = "1.3K"
    ∧ (1150 + 50) / 100 = (12 : Nat)
    ∧ (1250 + 50) / 100 = (13 : Nat)
    ∧ "1.1K" ≠ "1.2K" := by
  refine ⟨?_, ?_, by norm_num, by norm_num, by decide⟩
  · rw [formatNumber, if_neg (by norm_num), if_pos (by norm_num)]
    push_cast
    rw [jsToFixed1, roundToDouble,
      show Int.log 2 ((1150:ℚ) / 1000) = 0 from
        int_log2_eq _ 0 (by norm_num) (by norm_num) (by norm_num)]
    norm_num [roundHalfEven]
    simp only [Int.reduceToNat]
    norm_num [natToString, natToDigits_pos, natToDigits_zero]
    rfl
  · rw [formatNumber, if_neg (by norm_num), if_pos (by norm_num)]
    push_cast
    rw [jsToFixed1, roundToDouble,
      show Int.log 2 ((1250:ℚ) / 1000) = 0 from
        int_log2_eq _ 0 (by norm_num) (by norm_num) (by norm_num)]
    norm_num [roundHalfEven]
    simp only [Int.reduceToNat]
    norm_num [natToString, natToDigits_pos, natToDigits_zero]
    rfl

/-- C10: for a negative count the formatter falls through both the `K` and
`M` branches (which require at least 1000) and returns the plain signed
decimal string, never a `"K"`- or `"M"`-suffixed form. -/
theorem formatNumber_negative (n : Int) (hn : n < 0) :
    formatNumber n = jsIntToString n
    ∧ (formatNumber n).data.getLast? ≠ some 'K'
    ∧ (formatNumber n).data.getLast? ≠ some 'M' := by
  have h1 : ¬ ((1000000 : Int) ≤ n) := by omega
  have h2 : ¬ ((1000 : Int) ≤ n) := by omega
  have hfn : formatNumber n = jsIntToString n := by
    rw [formatNumber, if_neg h1, if_neg h2]
  obtain ⟨m, rfl⟩ := Int.eq_negSucc_of_lt_zero hn
  have hdata : (jsIntToString (Int.negSucc m)).data
      = '-' :: (natToDigits ((m + 1) / 10) ++ [Char.ofNat (48 + (m + 1) % 10)]) := by
    show (("-" : String) ++ natToString (m + 1)).data = _
    rw [String.data_append, natToString_data, if_neg (Nat.succ_ne_zero m),
      natToDigits_pos _ (Nat.succ_ne_zero m)]
    rfl
  have hlast : (jsIntToString (Int.negSucc m)).data.getLast?
      = some (Char.ofNat (48 + (m + 1) % 10)) := by
    rw [hdata, ← List.cons_append, List.getLast?_concat]
  obtain ⟨hK, hM, -, -, -⟩ := char_ofNat_digit_ne ((m + 1) % 10) (Nat.mod_lt _ (by norm_num))
  refine ⟨hfn, ?_, ?_⟩ <;> rw [hfn, hlast] <;> intro hc <;>
    exact absurd (Option.some.inj hc) (by assumption)

/-- Witness for C10 at `n = -5`. -/
theorem formatNumber_negative_witness :
    formatNumber (-5) = "-5"
    ∧ (formatNumber (-5)).data.getLast? ≠ some 'K'
    ∧ (formatNumber (-5)).data.getLast? ≠ some 'M' := by
  obtain ⟨h1, h2, h3⟩ := formatNumber_negative (-5) (by norm_num)
  refine ⟨?_, h2, h3⟩
  rw [h1, show (-5 : Int) = Int.negSucc 4 from rfl]
  norm_num [jsIntToString, natToString, natToDigits_pos, natToDigits_zero]
  rfl

/-- C6: `loadAssetsFromDirectory` fails exactly when the record file is
absent or its content has no second line (the reader then dereferences
`lines[1]` and the caught exception is rethrown); whenever it succeeds, the
avatar and banner paths are set if and only if the corresponding
conventional file exists, so a missing image never fails resolution. -/
theorem loadAssetsFromDirectory_spec (fs : UserDirFS) (username downloadsDir : String) :
    ((∃ e, loadAssetsFromDirectory fs username downloadsDir = Except.error e) ↔
      fs.csv = none ∨ ∃ c, fs.csv = some c ∧ (jsSplit '\n' c)[1]? = none)
    ∧ (∀ assets, loadAssetsFromDirectory fs username downloadsDir = Except.ok assets →
        assets.profileImagePath
          = (if fs.avatarExists then
               some (downloadsDir ++ "/" ++ username ++ "/profile_image.jpg") else none)
        ∧ assets.bannerImagePath
          = (if fs.bannerExists then
               some (downloadsDir ++ "/" ++ username ++ "/banner_image.jpg") else none)) := by
  cases hcsv : fs.csv with
  | none =>
    constructor
    · simp [loadAssetsFromDirectory, hcsv]
    · intro assets h
      simp [loadAssetsFromDirectory, hcsv] at h
  | some c =>
    cases hline : (jsSplit '\n' c)[1]? with
    | none =>
      constructor
      · simp only [loadAssetsFromDirectory, hcsv, List.get?_eq_getElem?, hline]
        simp [hline]
        exact List.getElem?_eq_none_iff.mp hline
      · intro assets h
        simp only [loadAssetsFromDirectory, hcsv, List.get?_eq_getElem?, hline] at h
        simp at h
    | some second =>
      constructor
      · simp only [loadAssetsFromDirectory, hcsv, List.get?_eq_getElem?, hline]
        simp [hline]
        obtain ⟨h1, -⟩ := List.getElem?_eq_some.mp hline
        exact h1
      · intro assets h
        simp only [loadAssetsFromDirectory, hcsv, List.get?_eq_getElem?, hline,
          Except.ok.injEq] at h
        subst h
        exact ⟨rfl, rfl⟩

/-- Witness for C6: a missing record fails; a two-line record with only the
avatar file present resolves with the avatar path set and the banner unset. -/
theorem loadAssetsFromDirectory_spec_witness :
    (∃ e, loadAssetsFromDirectory ⟨none, true, true⟩ "alice" "downloads" = Except.error e)
    ∧ ((loadAssetsFromDirectory ⟨some "h\nrow", true, false⟩ "alice" "downloads").toOption.map
        (fun a => (a.profileImagePath, a.bannerImagePath)))
      = some (some "downloads/alice/profile_image.jpg", none) := by
  constructor
  · exact (loadAssetsFromDirectory_spec ⟨none, true, true⟩ "alice" "downloads").1.mpr (Or.inl rfl)
  · rfl

/-! ## Split/join lemmas for the CSV round trip -/

theorem stringMk_data (s : String) : String.mk s.data = s := rfl

theorem splitOnCharList_sepFree (sep : Char) (xs : List Char) (h : sep ∉ xs) :
    splitOnCharList sep xs = [xs] := by
  induction xs with
  | nil => rfl
  | cons c cs ih =>
    have hc : ¬ c = sep := fun hc => h (hc ▸ List.mem_cons_self c cs)
    have hcs : sep ∉ cs := fun hm => h (List.mem_cons_of_mem c hm)
    rw [splitOnCharList]
    simp only [hc, if_false, ih hcs]

theorem splitOnCharList_append (sep : Char) (xs ys : List Char) (h : sep ∉ xs) :
    splitOnCharList sep (xs ++ sep :: ys) = xs :: splitOnCharList sep ys := by
  induction xs with
  | nil =>
    rw [List.nil_append, splitOnCharList]
    simp
  | cons c cs ih =>
    have hc : ¬ c = sep := fun hc => h (hc ▸ List.mem_cons_self c cs)
    have hcs : sep ∉ cs := fun hm => h (List.mem_cons_of_mem c hm)
    rw [List.cons_append, splitOnCharList]
    simp only [hc, if_false, ih hcs]

theorem joinComma_mem (cells : List String) (ch : Char) (h : ch ∈ (joinComma cells).data) :
    ch = ',' ∨ ∃ s ∈ cells, ch ∈ s.data := by
  induction cells with
  | nil => simp [joinComma] at h
  | cons c cs ih =>
    cases cs with
    | nil =>
      right; exact ⟨c, List.mem_cons_self c [], h⟩
    | cons c2 cs2 =>
      rw [show joinComma (c :: c2 :: cs2) = c ++ "," ++ joinComma (c2 :: cs2) from rfl] at h
      rw [String.data_append, String.data_append] at h
      rcases List.mem_append.1 h with h1 | h1
      · rcases List.mem_append.1 h1 with h2 | h2
        · right; exact ⟨c, List.mem_cons_self c _, h2⟩
        · left; rcases List.mem_singleton.1 h2 with rfl; rfl
      · rcases ih h1 with h2 | ⟨s, hs, hin⟩
        · exact Or.inl h2
        · exact Or.inr ⟨s, List.mem_cons_of_mem c hs, hin⟩

theorem split_joinComma (cells : List String) (hne : cells ≠ [])
    (hclean : ∀ s ∈ cells, ',' ∉ s.data) :
    jsSplit ',' (joinComma cells) = cells := by
  rw [jsSplit]
  suffices h : splitOnCharList ',' (joinComma cells).data = cells.map String.data by
    rw [h, List.map_map]
    have : (String.mk ∘ String.data) = id := funext stringMk_data
    rw [this, List.map_id]
  induction cells with
  | nil => exact absurd rfl hne
  | cons c cs ih =>
    cases cs with
    | nil =>
      exact splitOnCharList_sepFree ',' c.data (hclean c (List.mem_cons_self c []))
    | cons c2 cs2 =>
      have hdata : (joinComma (c :: c2 :: cs2)).data
          = c.data ++ ',' :: (joinComma (c2 :: cs2)).data := by
        rw [show joinComma (c :: c2 :: cs2) = c ++ "," ++ joinComma (c2 :: cs2) from rfl]
        rw [String.data_append, String.data_append]
        simp
      rw [hdata, splitOnCharList_append ',' _ _ (hclean c (List.mem_cons_self c _))]
      rw [ih (by simp) (fun s hs => hclean s (List.mem_cons_of_mem c hs))]
      rfl

/-- A field value the CSV escaping leaves alone: no comma, quote or newline. -/
def cleanField (s : String) : Prop :=
  ',' ∉ s.data ∧ '"' ∉ s.data ∧ '\n' ∉ s.data

instance (s : String) : Decidable (cleanField s) := by
  unfold cleanField; infer_instance

theorem escapeCSVField_eq_self (s : String) (h : cleanField s) : escapeCSVField s = s := by
  obtain ⟨h1, h2, h3⟩ := h
  rw [escapeCSVField, if_neg]
  push_neg
  exact ⟨h1, h3, h2⟩

theorem jsIntToString_clean (n : Int) : cleanField (jsIntToString n) := by
  have hnat : ∀ m : Nat, cleanField (natToString m) := by
    intro m
    refine ⟨?_, ?_, ?_⟩ <;> rw [natToString_data] <;> by_cases h : m = 0
    · subst h; decide
    · rw [if_neg h]; intro hm
      obtain ⟨hc, -, -, -, -, -, -⟩ := isDigit_ne_special _ (natToDigits_isDigit m _ hm)
      exact hc rfl
    · subst h; decide
    · rw [if_neg h]; intro hm
      obtain ⟨-, hc, -, -, -, -, -⟩ := isDigit_ne_special _ (natToDigits_isDigit m _ hm)
      exact hc rfl
    · subst h; decide
    · rw [if_neg h]; intro hm
      obtain ⟨-, -, hc, -, -, -, -⟩ := isDigit_ne_special _ (natToDigits_isDigit m _ hm)
      exact hc rfl
  cases n with
  | ofNat m => exact hnat m
  | negSucc m =>
    obtain ⟨h1, h2, h3⟩ := hnat (m + 1)
    have hdata : (jsIntToString (Int.negSucc m)).data = '-' :: (natToString (m + 1)).data := by
      show (("-" : String) ++ natToString (m + 1)).data = _
      rw [String.data_append]; rfl
    refine ⟨?_, ?_, ?_⟩ <;> rw [hdata] <;> intro hm <;> rcases List.mem_cons.1 hm with h | h
    · exact absurd h.symm (by decide)
    · exact h1 h
    · exact absurd h.symm (by decide)
    · exact h2 h
    · exact absurd h.symm (by decide)
    · exact h3 h

theorem boolCell_clean (b : Bool) : cleanField (boolCell b) := by
  cases b <;> decide

theorem intCell_clean (n : Int) : cleanField (intCell n) := by
  by_cases h : n = 0
  · simp [intCell, h]; decide
  · rw [intCell, if_neg h, escapeCSVField_eq_self _ (jsIntToString_clean n)]
    exact jsIntToString_clean n

theorem intCell_roundTrip (n : Int) : parseIntOr0 (some (intCell n)) = n := by
  by_cases h : n = 0
  · simp [intCell, h, parseIntOr0]
    rw [show escapeCSVField "" = "" from rfl]
    rfl
  · rw [intCell, if_neg h, escapeCSVField_eq_self _ (jsIntToString_clean n),
      parseIntOr0, parseIntJS_jsIntToString]
    rfl

theorem boolCell_roundTrip (b : Bool) : (some (boolCell b) == some "true") = b := by
  cases b <;> rfl

theorem clean_escapeCSVField (s : String) (h : cleanField s) :
    cleanField (escapeCSVField s) := by
  rw [escapeCSVField_eq_self s h]; exact h

theorem exportContent_lines (pd : TwitterProfileData) (now : String)
    (hclean : ∀ s ∈ toCSVRowCells pd now, cleanField s) :
    jsSplit '\n' (exportProfileDataContent pd now)
      = [joinComma csvHeaderCells, joinComma (toCSVRowCells pd now), ""] := by
  have hHnl : '\n' ∉ (joinComma csvHeaderCells).data := by decide
  have hBnl : '\n' ∉ (joinComma (toCSVRowCells pd now)).data := by
    intro hm
    rcases joinComma_mem _ _ hm with h | ⟨s, hs, hin⟩
    · exact absurd h (by decide)
    · exact (hclean s hs).2.2 hin
  have hdata : (exportProfileDataContent pd now).data
      = (joinComma csvHeaderCells).data
        ++ '\n' :: ((joinComma (toCSVRowCells pd now)).data ++ '\n' :: []) := by
    show (joinComma csvHeaderCells ++ "\n" ++ joinComma (toCSVRowCells pd now) ++ "\n").data = _
    rw [String.data_append, String.data_append, String.data_append]
    simp
  rw [jsSplit, hdata, splitOnCharList_append '\n' _ _ hHnl,
    splitOnCharList_append '\n' _ _ hBnl]
  rfl

/-- C3 (amended): exporting a profile whose string fields are free of
commas, quotes and newlines and then resolving the same handle from the
written record reconstructs the profile exactly: the writer's column
ordinals agree with the reader's fixed positions for id, name, handle,
description, the verified flag and the three claimed counters. -/
theorem csv_roundTrip (pd : TwitterProfileData) (now downloadsDir : String) (a b : Bool)
    (hid : cleanField pd.id) (hname : cleanField pd.name)
    (huser : cleanField pd.username) (hdesc : cleanField pd.description)
    (hsub : cleanField pd.subscriptionType) (himg : cleanField pd.profileImageUrl)
    (hban : cleanField pd.profileBannerUrl) (hnow : cleanField now) :
    ∃ assets,
      loadAssetsFromDirectory ⟨some (exportProfileDataContent pd now), a, b⟩
        pd.username downloadsDir = Except.ok assets
      ∧ assets.profileData.id = pd.id
      ∧ assets.profileData.name = pd.name
      ∧ assets.profileData.username = pd.username
      ∧ assets.profileData.description = pd.description
      ∧ assets.profileData.verified = pd.verified
      ∧ assets.profileData.followersCount = pd.followersCount
      ∧ assets.profileData.followingCount = pd.followingCount
      ∧ assets.profileData.tweetCount = pd.tweetCount := by
  have hclean : ∀ s ∈ toCSVRowCells pd now, cleanField s := by
    intro s hs
    simp only [toCSVRowCells, List.mem_cons, List.not_mem_nil, or_false] at hs
    rcases hs with rfl | rfl | rfl | rfl | rfl | rfl | rfl | rfl | rfl | rfl | rfl | rfl | rfl | rfl | rfl | rfl
    · exact clean_escapeCSVField _ hid
    · exact clean_escapeCSVField _ hname
    · exact clean_escapeCSVField _ huser
    · exact clean_escapeCSVField _ hdesc
    · exact boolCell_clean _
    · exact intCell_clean _
    · exact intCell_clean _
    · exact intCell_clean _
    · exact intCell_clean _
    · exact intCell_clean _
    · exact intCell_clean _
    · exact boolCell_clean _
    · exact clean_escapeCSVField _ hsub
    · exact clean_escapeCSVField _ himg
    · exact clean_escapeCSVField _ hban
    · exact clean_escapeCSVField _ hnow
  have hline1 : (jsSplit '\n' (exportProfileDataContent pd now))[1]?
      = some (joinComma (toCSVRowCells pd now)) := by
    rw [exportContent_lines pd now hclean]
    rfl
  have hdata : jsSplit ',' (joinComma (toCSVRowCells pd now)) = toCSVRowCells pd now :=
    split_joinComma _ (by simp [toCSVRowCells]) (fun s hs => (hclean s hs).1)
  have hload : loadAssetsFromDirectory ⟨some (exportProfileDataContent pd now), a, b⟩
      pd.username downloadsDir = Except.ok
        { profileData := pd
          profileImagePath :=
            if a then some (downloadsDir ++ "/" ++ pd.username ++ "/profile_image.jpg") else none
          bannerImagePath :=
            if b then some (downloadsDir ++ "/" ++ pd.username ++ "/banner_image.jpg") else none } := by
    simp only [loadAssetsFromDirectory, List.get?_eq_getElem?, hline1]
    rw [hdata]
    simp only [toCSVRowCells, List.getElem?_cons_zero, List.getElem?_cons_succ,
      Option.getD_some]
    rw [escapeCSVField_eq_self _ hid, escapeCSVField_eq_self _ hname,
      escapeCSVField_eq_self _ huser, escapeCSVField_eq_self _ hdesc,
      escapeCSVField_eq_self _ hsub, escapeCSVField_eq_self _ himg,
      escapeCSVField_eq_self _ hban, boolCell_roundTrip, boolCell_roundTrip,
      intCell_roundTrip, intCell_roundTrip, intCell_roundTrip, intCell_roundTrip,
      intCell_roundTrip, intCell_roundTrip]
  exact ⟨_, hload, rfl, rfl, rfl, rfl, rfl, rfl, rfl, rfl⟩

/-- A profile whose description contains a comma (and nothing else dirty). -/
def pdComma : TwitterProfileData :=
  { id := "i", name := "n", username := "u", description := "a,b",
    profileImageUrl := "", profileBannerUrl := "", verified := true,
    followersCount := 0, followingCount := 0, tweetCount := 0,
    listedCount := 0, likeCount := 0, mediaCount := 0,
    subscribesToYou := false, subscriptionType := "" }

/-- C3 counterexample: the writer quotes a description containing a comma,
but the reader splits the data row naively on every comma, so the
reconstructed description is the quoted fragment and every later column
shifts (the verified flag reads the description fragment and becomes
false). -/
theorem csv_roundTrip_counterexample :
    ((loadAssetsFromDirectory ⟨some (exportProfileDataContent pdComma "t"), false, false⟩
        "u" "downloads").toOption.map
      (fun a2 => (a2.profileData.description, a2.profileData.verified)))
      = some ("\"a", false)
    ∧ pdComma.description = "a,b" ∧ pdComma.verified = true := by
  refine ⟨?_, rfl, rfl⟩
  rfl

/-- A profile with only comma/quote/newline-free fields. -/
def pdClean : TwitterProfileData :=
  { id := "1", name := "Ada", username := "ada", description := "hi",
    profileImageUrl := "", profileBannerUrl := "", verified := true,
    followersCount := 1500, followingCount := 10, tweetCount := 42,
    listedCount := 0, likeCount := 0, mediaCount := 0,
    subscribesToYou := false, subscriptionType := "" }

/-- Witness for amended C3 at a concrete clean profile. -/
theorem csv_roundTrip_witness :
    ∃ assets,
      loadAssetsFromDirectory ⟨some (exportProfileDataContent pdClean "2024-01-01"), true, false⟩
        "ada" "downloads" = Except.ok assets
      ∧ assets.profileData.id = "1"
      ∧ assets.profileData.name = "Ada"
      ∧ assets.profileData.username = "ada"
      ∧ assets.profileData.description = "hi"
      ∧ assets.profileData.verified = true
      ∧ assets.profileData.followersCount = 1500
      ∧ assets.profileData.followingCount = 10
      ∧ assets.profileData.tweetCount = 42 :=
  csv_roundTrip pdClean "2024-01-01" "downloads" true false
    (by decide) (by decide) (by decide) (by decide)
    (by decide) (by decide) (by decide) (by decide)

/-! ## Word-wrap lemmas (C4) -/

/-- Concatenation of emitted lines (wrap whitespace included). -/
def joinAll : List String → String
  | [] => ""
  | s :: rest => s ++ joinAll rest

theorem strEmptyAppend (s : String) : "" ++ s = s := rfl

theorem strAppendEmpty (s : String) : s ++ "" = s :=
  String.ext (by rw [String.data_append]; exact List.append_nil _)

theorem append_space_ne_empty (s w : String) : s ++ w ++ " " ≠ "" := by
  intro h
  have hd : (s ++ w ++ " ").data = [] := by rw [h]
  rw [String.data_append, String.data_append] at hd
  simp at hd

theorem wrapLoop_join (meas : String → ℚ) (maxW : ℚ) :
    ∀ (ws : List String) (line : String),
      joinAll (wrapLoop meas maxW ws line) = line ++ joinAll (ws.map (fun w => w ++ " ")) := by
  intro ws
  induction ws with
  | nil =>
    intro line
    by_cases h : line = ""
    · subst h; rfl
    · rw [wrapLoop, if_pos h]
      show line ++ "" = line ++ ""
      rfl
  | cons w ws ih =>
    intro line
    rw [wrapLoop]
    by_cases hc : maxW < meas (line ++ w ++ " ") ∧ ¬ line = ""
    · rw [if_pos hc]
      show line ++ joinAll (wrapLoop meas maxW ws (w ++ " ")) = _
      rw [ih (w ++ " ")]
      show line ++ ((w ++ " ") ++ joinAll (ws.map (fun w => w ++ " ")))
        = line ++ ((w ++ " ") ++ joinAll (ws.map (fun w => w ++ " ")))
      rfl
    · rw [if_neg hc, ih (line ++ w ++ " ")]
      simp [joinAll, String.append_assoc]

theorem wrapLoop_ne_nil (meas : String → ℚ) (maxW : ℚ) :
    ∀ (ws : List String) (line : String), line ≠ "" → wrapLoop meas maxW ws line ≠ [] := by
  intro ws
  induction ws with
  | nil => intro line h; rw [wrapLoop, if_pos h]; simp
  | cons w ws ih =>
    intro line h
    rw [wrapLoop]
    by_cases hc : maxW < meas (line ++ w ++ " ") ∧ ¬ line = ""
    · rw [if_pos hc]; simp
    · rw [if_neg hc]; exact ih _ (append_space_ne_empty line w)

theorem space_ne_empty (w : String) : w ++ " " ≠ "" := by
  intro h
  have hd : (w ++ " ").data = [] := by rw [h]
  rw [String.data_append] at hd
  simp at hd

theorem wrapLoop_single_fits (meas : String → ℚ) (maxW : ℚ) :
    ∀ (ws : List String) (line : String),
      (∀ w ∈ ws, meas (w ++ " ") ≤ maxW) → line ≠ "" → meas line ≤ maxW →
      (wrapLoop meas maxW ws line).length = 1 →
      meas (joinAll (wrapLoop meas maxW ws line)) ≤ maxW := by
  intro ws
  induction ws with
  | nil =>
    intro line hfit hne hm hlen
    rw [wrapLoop, if_pos hne]
    show meas (line ++ "") ≤ maxW
    rw [strAppendEmpty]
    exact hm
  | cons w ws ih =>
    intro line hfit hne hm hlen
    rw [wrapLoop] at hlen ⊢
    by_cases hc : maxW < meas (line ++ w ++ " ") ∧ line ≠ ""
    · rw [if_pos hc] at hlen
      exfalso
      have hnil := wrapLoop_ne_nil meas maxW ws (w ++ " ") (space_ne_empty w)
      rw [List.length_cons] at hlen
      have hzero : (wrapLoop meas maxW ws (w ++ " ")).length = 0 := by omega
      exact hnil (List.length_eq_zero.mp hzero)
    · rw [if_neg hc] at hlen ⊢
      have hms : meas (line ++ w ++ " ") ≤ maxW := by
        rcases not_and_or.1 hc with h | h
        · exact le_of_not_lt h
        · exact absurd (not_not.1 h) hne
      exact ih _ (fun v hv => hfit v (List.mem_cons_of_mem w hv))
        (append_space_ne_empty line w) hms hlen

theorem wrapLoop_width (meas : String → ℚ) (maxW : ℚ) :
    ∀ (ws : List String) (line : String),
      (∀ w ∈ ws, meas (w ++ " ") ≤ maxW) → (line = "" ∨ meas line ≤ maxW) →
      ∀ l ∈ wrapLoop meas maxW ws line, meas l ≤ maxW := by
  intro ws
  induction ws with
  | nil =>
    intro line hfit hline l hl
    rw [wrapLoop] at hl
    by_cases h : line = ""
    · rw [if_neg (by simpa using h)] at hl
      simp at hl
    · rw [if_pos h] at hl
      rcases List.mem_singleton.1 hl with rfl
      rcases hline with h2 | h2
      · exact absurd h2 h
      · exact h2
  | cons w ws ih =>
    intro line hfit hline l hl
    rw [wrapLoop] at hl
    by_cases hc : maxW < meas (line ++ w ++ " ") ∧ line ≠ ""
    · rw [if_pos hc] at hl
      rcases List.mem_cons.1 hl with rfl | hl2
      · rcases hline with h2 | h2
        · exact absurd h2 hc.2
        · exact h2
      · exact ih (w ++ " ") (fun v hv => hfit v (List.mem_cons_of_mem w hv))
          (Or.inr (hfit w (List.mem_cons_self w ws))) l hl2
    · rw [if_neg hc] at hl
      have hnext : line ++ w ++ " " = "" ∨ meas (line ++ w ++ " ") ≤ maxW := by
        rcases not_and_or.1 hc with h | h
        · exact Or.inr (le_of_not_lt h)
        · have hline0 : line = "" := not_not.1 h
          subst hline0
          exact Or.inr (hfit w (List.mem_cons_self w ws))
      exact ih _ (fun v hv => hfit v (List.mem_cons_of_mem w hv)) hnext l hl

theorem splitOnCharList_ne_nil (sep : Char) (l : List Char) :
    splitOnCharList sep l ≠ [] := by
  induction l with
  | nil => simp [splitOnCharList]
  | cons c cs ih =>
    rw [splitOnCharList]
    by_cases h : c = sep
    · simp [h]
    · simp only [h, if_false]
      cases hr : splitOnCharList sep cs with
      | nil => simp
      | cons g gs => simp

theorem jsSplit_ne_nil (sep : Char) (s : String) : jsSplit sep s ≠ [] := by
  rw [jsSplit]
  intro h
  exact splitOnCharList_ne_nil sep s.data (List.map_eq_nil_iff.mp h)

theorem enum_text_opY (L : List String) (y0 : ℚ) (f c : String) :
    ((L.enum).map (fun p => DrawOp.text p.2 60 (y0 + 30 * (p.1 : ℚ)) f c)).map DrawOp.opY
      = (List.range L.length).map (fun i : Nat => y0 + 30 * (i : ℚ)) := by
  rw [List.map_map, ← List.enum_map_fst L, List.map_map]
  rfl

/-- C4 (amended): for a description whose words (each with its trailing
space) individually fit within the budget `width - 120` while the whole
sequence does not, the greedy wrap of `drawDescription` emits at least two
lines, every emitted line fits within the budget, concatenating the emitted
lines reproduces the word sequence (each word followed by its single wrap
space, none dropped, split or duplicated), the trailing line is flushed, and
the emitted lines are drawn at vertical offsets advancing by exactly 30px
per line. -/
theorem drawDescription_wrap_spec (meas : String → ℚ) (opts : CardOptions)
    (description : String)
    (hfit : ∀ w ∈ jsSplit ' ' description, meas (w ++ " ") ≤ (opts.width : ℚ) - 120)
    (hlong : (opts.width : ℚ) - 120
        < meas (joinAll ((jsSplit ' ' description).map (fun w => w ++ " ")))) :
    2 ≤ (wrapLines meas ((opts.width : ℚ) - 120) (jsSplit ' ' description)).length
    ∧ (∀ l ∈ wrapLines meas ((opts.width : ℚ) - 120) (jsSplit ' ' description),
        meas l ≤ (opts.width : ℚ) - 120)
    ∧ joinAll (wrapLines meas ((opts.width : ℚ) - 120) (jsSplit ' ' description))
        = joinAll ((jsSplit ' ' description).map (fun w => w ++ " "))
    ∧ (drawDescription meas description opts).map DrawOp.opY
        = (List.range
            (wrapLines meas ((opts.width : ℚ) - 120) (jsSplit ' ' description)).length).map
            (fun i : Nat => descStartY opts + 30 * (i : ℚ)) := by
  have hjoin : joinAll (wrapLines meas ((opts.width : ℚ) - 120) (jsSplit ' ' description))
      = joinAll ((jsSplit ' ' description).map (fun w => w ++ " ")) := by
    rw [wrapLines, wrapLoop_join]
    rfl
  have hwidth := wrapLoop_width meas ((opts.width : ℚ) - 120) (jsSplit ' ' description) ""
    hfit (Or.inl rfl)
  refine ⟨?_, hwidth, hjoin, ?_⟩
  · obtain ⟨w1, ws, hcons⟩ := List.exists_cons_of_ne_nil (jsSplit_ne_nil ' ' description)
    have hstep : wrapLines meas ((opts.width : ℚ) - 120) (jsSplit ' ' description)
        = wrapLoop meas ((opts.width : ℚ) - 120) ws ("" ++ w1 ++ " ") := by
      rw [wrapLines, hcons, wrapLoop, if_neg]
      intro hand
      exact hand.2 rfl
    have hne1 : ("" ++ w1 ++ " ") ≠ "" := append_space_ne_empty "" w1
    have hm1 : meas ("" ++ w1 ++ " ") ≤ (opts.width : ℚ) - 120 :=
      hfit w1 (hcons ▸ List.mem_cons_self w1 ws)
    have hnil : wrapLines meas ((opts.width : ℚ) - 120) (jsSplit ' ' description) ≠ [] := by
      rw [hstep]
      exact wrapLoop_ne_nil meas _ ws _ hne1
    by_contra hlt
    push_neg at hlt
    have hpos : 0 < (wrapLines meas ((opts.width : ℚ) - 120) (jsSplit ' ' description)).length :=
      List.length_pos.mpr hnil
    have hlen1 : (wrapLines meas ((opts.width : ℚ) - 120) (jsSplit ' ' description)).length = 1 := by
      omega
    rw [hstep] at hlen1
    have hle := wrapLoop_single_fits meas ((opts.width : ℚ) - 120) ws ("" ++ w1 ++ " ")
      (fun v hv => hfit v (hcons ▸ List.mem_cons_of_mem w1 hv)) hne1 hm1 hlen1
    rw [← hstep, hjoin] at hle
    exact absurd hle (not_le.2 hlong)
  · rw [drawDescription]
    exact enum_text_opY _ _ _ _

/-- A concrete text measure: one pixel per character. -/
def lenMeas : String → ℚ := fun s => (s.data.length : ℚ)

/-- C4 counterexample: with canvas width 125 the budget is 5; the single-word
description exceeds the budget, yet exactly one line is emitted (not at
least two) and that line exceeds the budget. -/
theorem drawDescription_wrap_counterexample :
    ((mergeOptions { width := some 125 }).width : ℚ) - 120 = 5
    ∧ (5 : ℚ) < lenMeas (joinAll ((jsSplit ' ' "abcdefghij").map (fun w => w ++ " ")))
    ∧ (wrapLines lenMeas 5 (jsSplit ' ' "abcdefghij")).length = 1
    ∧ (drawDescription lenMeas "abcdefghij" (mergeOptions { width := some 125 })).length = 1
    ∧ ∀ l ∈ wrapLines lenMeas 5 (jsSplit ' ' "abcdefghij"), (5 : ℚ) < lenMeas l := by
  have hbud : ((mergeOptions { width := some 125 }).width : ℚ) - 120 = 5 := by
    norm_num [mergeOptions]
  refine ⟨hbud, by decide, by decide, ?_, by decide⟩
  simp only [drawDescription, List.length_map, List.enum_length, hbud]
  decide

/-- Witness for amended C4 on the two-word description "abc de" with
budget 6. -/
theorem drawDescription_wrap_spec_witness :
    2 ≤ (wrapLines lenMeas (((mergeOptions { width := some 126 }).width : ℚ) - 120)
          (jsSplit ' ' "abc de")).length
    ∧ joinAll (wrapLines lenMeas (((mergeOptions { width := some 126 }).width : ℚ) - 120)
          (jsSplit ' ' "abc de"))
        = joinAll ((jsSplit ' ' "abc de").map (fun w => w ++ " ")) := by
  have hbud : ((mergeOptions { width := some 126 }).width : ℚ) - 120 = 6 := by
    norm_num [mergeOptions]
  have h := drawDescription_wrap_spec lenMeas (mergeOptions { width := some 126 }) "abc de"
    (by rw [hbud]; decide) (by rw [hbud]; decide)
  exact ⟨h.1, h.2.2.1⟩

/-! ## Render pipeline claims -/

/-- C9: rendering is deterministic given an explicit output path: the
ambient timestamp (used only for the default output path) does not influence
the painted operations, the encoded buffer, or the result. -/
theorem generateCard_deterministic (env : Env) (assets : CardAssets)
    (options : CardGenerationOptions) (p : String) (t1 t2 : String) :
    generateCard { env with now := t1 } assets options (some p)
      = generateCard { env with now := t2 } assets options (some p) := rfl

/-- C8: `generateCard` is total and all-or-nothing: a success result comes
with exactly the one written file and no error; a failure result comes with
a message and no file written; invalid canvas geometry or an encode failure
forces the failure result. -/
theorem generateCard_total (env : Env) (assets : CardAssets)
    (options : CardGenerationOptions) (pathOpt : Option String) :
    ((generateCard env assets options pathOpt).1.success = true →
      ∃ p buf, (generateCard env assets options pathOpt).2 = [(p, buf)]
        ∧ (generateCard env assets options pathOpt).1.outputPath = some p
        ∧ (generateCard env assets options pathOpt).1.error = none)
    ∧ ((generateCard env assets options pathOpt).1.success = false →
      (generateCard env assets options pathOpt).2 = []
        ∧ ∃ msg, (generateCard env assets options pathOpt).1.error = some msg)
    ∧ ((mergeOptions options).width ≤ 0 ∨ (mergeOptions options).height ≤ 0
        ∨ env.encodeOk = false →
      (generateCard env assets options pathOpt).1.success = false) := by
  by_cases h1 : (mergeOptions options).width ≤ 0 ∨ (mergeOptions options).height ≤ 0
  · simp [generateCard, h1]
  · by_cases h2 : env.encodeOk
    · simp [generateCard, h1, h2]
    · simp [generateCard, h1, h2]

/-- An image environment in which every bitmap load fails. -/
def envNoImages : Env :=
  { images := fun _ => none, meas := fun _ => 0, now := "T", cwd := ".", encodeOk := true }

/-- A minimal profile used for concrete render evaluations. -/
def pdTest : TwitterProfileData :=
  { id := "1", name := "N", username := "u", description := "",
    profileImageUrl := "", profileBannerUrl := "", verified := false,
    followersCount := 0, followingCount := 0, tweetCount := 0,
    listedCount := 0, likeCount := 0, mediaCount := 0,
    subscribesToYou := false, subscriptionType := "" }

/-- Witness for C8: with a failing encoder the render returns a failure
result with a message and writes nothing. -/
theorem generateCard_total_witness :
    (generateCard { envNoImages with encodeOk := false } { profileData := pdTest } {}
        (some "out.png")).1.success = false
    ∧ (generateCard { envNoImages with encodeOk := false } { profileData := pdTest } {}
        (some "out.png")).2 = [] := by
  have h := generateCard_total { envNoImages with encodeOk := false }
    { profileData := pdTest } {} (some "out.png")
  have hfail := h.2.2 (Or.inr (Or.inr rfl))
  exact ⟨hfail, (h.2.1 hfail).1⟩

/-- C7: a banner bitmap that fails to load is indistinguishable from an
absent banner (the warning is logged and no operation is emitted), and
likewise for the avatar; such a failure never makes the render fail — with
valid geometry and a working encoder the result is still a success. -/
theorem generateCard_brokenAsset_isolated (env : Env) (assets : CardAssets)
    (options : CardGenerationOptions) (pathOpt : Option String) :
    (∀ bp, assets.bannerImagePath = some bp → env.images bp = none →
      generateCard env assets options pathOpt
        = generateCard env { assets with bannerImagePath := none } options pathOpt)
    ∧ (∀ ap, assets.profileImagePath = some ap → env.images ap = none →
      generateCard env assets options pathOpt
        = generateCard env { assets with profileImagePath := none } options pathOpt)
    ∧ (¬ (mergeOptions options).width ≤ 0 → ¬ (mergeOptions options).height ≤ 0 →
      env.encodeOk = true →
      (generateCard env assets options pathOpt).1.success = true) := by
  refine ⟨?_, ?_, ?_⟩
  · intro bp hbp himg
    have hops : renderOps env assets (mergeOptions options)
        = renderOps env { assets with bannerImagePath := none } (mergeOptions options) := by
      simp [renderOps, hbp, drawBanner, himg]
    simp [generateCard, hops]
  · intro ap hap himg
    have hops : renderOps env assets (mergeOptions options)
        = renderOps env { assets with profileImagePath := none } (mergeOptions options) := by
      simp [renderOps, hap, drawProfileImage, himg]
    simp [generateCard, hops]
  · intro hw hh henc
    simp [generateCard, hw, hh, henc, not_or]

/-- Witness for C7: with a banner path present but every load failing, the
render equals the bannerless render and still succeeds. -/
theorem generateCard_brokenAsset_isolated_witness :
    generateCard envNoImages { profileData := pdTest, bannerImagePath := some "b.jpg" } {}
        (some "out.png")
      = generateCard envNoImages { profileData := pdTest } {} (some "out.png")
    ∧ (generateCard envNoImages { profileData := pdTest, bannerImagePath := some "b.jpg" } {}
        (some "out.png")).1.success = true := by
  have h := generateCard_brokenAsset_isolated envNoImages
    { profileData := pdTest, bannerImagePath := some "b.jpg" } {} (some "out.png")
  exact ⟨h.1 "b.jpg" rfl rfl, h.2.2 (by decide) (by decide) rfl⟩

theorem renderOps_bannerFree (env : Env) (assets : CardAssets) (opts : CardOptions)
    (hnb : opts.showBanner = false ∨ assets.bannerImagePath = none) :
    ∀ op ∈ renderOps env assets opts, op.isBannerOp = false := by
  intro op hop
  simp only [renderOps, List.mem_append] at hop
  rcases hop with ((((hbg | hban) | hav) | hinfo) | hstats) | hdesc
  · simp only [drawBackground, List.mem_singleton] at hbg
    subst hbg; rfl
  · split at hban
    · rename_i bp heq
      rcases hnb with hb | hnone
      · rw [hb] at hban; simp at hban
      · rw [heq] at hnone; simp at hnone
    · simp at hban
  · split at hav
    · rename_i pp heq
      simp only [drawProfileImage] at hav
      split at hav
      · simp at hav
      · simp only [List.mem_cons, List.not_mem_nil, or_false] at hav
        rcases hav with rfl | rfl <;> rfl
    · simp at hav
  · simp only [drawProfileInfo, List.mem_append, List.mem_cons,
      List.not_mem_nil, or_false] at hinfo
    rcases hinfo with (rfl | rfl) | hv
    · rfl
    · rfl
    · split at hv
      · simp only [List.mem_singleton] at hv; subst hv; rfl
      · simp at hv
  · split at hstats
    · simp only [drawStats, List.mem_cons, List.not_mem_nil, or_false] at hstats
      rcases hstats with rfl | rfl | rfl | rfl | rfl | rfl <;> rfl
    · simp at hstats
  · split at hdesc
    · simp only [drawDescription, List.mem_map] at hdesc
      obtain ⟨p, -, rfl⟩ := hdesc
      rfl
    · simp at hdesc

theorem renderOps_circleImage (env : Env) (assets : CardAssets) (opts : CardOptions) :
    ∀ p x y s, DrawOp.circleImage p x y s ∈ renderOps env assets opts →
      x = 60
      ∧ y = (if opts.showBanner then ((bannerBandHeight opts : ℤ) : ℚ) - 60 else 60)
      ∧ s = 120 := by
  intro p x y s hop
  simp only [renderOps, List.mem_append] at hop
  rcases hop with ((((hbg | hban) | hav) | hinfo) | hstats) | hdesc
  · simp [drawBackground] at hbg
  · split at hban
    · rename_i bp heq
      split at hban
      · simp only [drawBanner] at hban
        split at hban
        · simp at hban
        · simp at hban
      · simp at hban
    · simp at hban
  · split at hav
    · rename_i pp heq
      simp only [drawProfileImage] at hav
      split at hav
      · simp at hav
      · simp only [List.mem_cons, List.not_mem_nil, or_false] at hav
        rcases hav with hav | hav
        · obtain ⟨-, h1, h2, h3⟩ := DrawOp.circleImage.injEq .. |>.mp hav.symm
          exact ⟨h1.symm, h2.symm, h3.symm⟩
        · simp at hav
    · simp at hav
  · simp only [drawProfileInfo, List.mem_append, List.mem_cons,
      List.not_mem_nil, or_false] at hinfo
    rcases hinfo with (h | h) | hv
    · simp at h
    · simp at h
    · split at hv
      · simp at hv
      · simp at hv
  · split at hstats
    · simp [drawStats] at hstats
    · simp at hstats
  · split at hdesc
    · simp only [drawDescription, List.mem_map] at hdesc
      obtain ⟨q, -, habs⟩ := hdesc
      simp at habs
    · simp at hdesc

/-- C2 (amended): when `showBanner` is false no banner band is painted, the
avatar circle is drawn at x = 60, y = 60, size 120, the identity block
starts at its fixed y = 200, the stats row at y = 400, and the description
lines start at y = 500 advancing 30px per line; moreover a render without a
banner bitmap never paints a banner band either (for any options), though in
that case — as the counterexample shows — the element offsets stay
banner-relative when `showBanner` is true. -/
theorem renderOps_noBanner_spec (env : Env) (assets : CardAssets) (opts : CardOptions)
    (hb : opts.showBanner = false) :
    (∀ op ∈ renderOps env assets opts, op.isBannerOp = false)
    ∧ (∀ p x y s, DrawOp.circleImage p x y s ∈ renderOps env assets opts →
        x = 60 ∧ y = 60 ∧ s = 120)
    ∧ DrawOp.text assets.profileData.name 60 200 ("bold 36px " ++ opts.fontFamily)
        opts.textColor ∈ renderOps env assets opts
    ∧ (opts.showStats = true →
        DrawOp.text assets.profileData.getFormattedFollowersCount 60 400
          ("bold 24px " ++ opts.fontFamily) opts.textColor ∈ renderOps env assets opts)
    ∧ (∀ description, (drawDescription env.meas description opts).map DrawOp.opY
        = (List.range (wrapLines env.meas ((opts.width : ℚ) - 120)
            (jsSplit ' ' description)).length).map (fun i : Nat => 500 + 30 * (i : ℚ)))
    ∧ (∀ (env2 : Env) (assets2 : CardAssets) (opts2 : CardOptions),
        assets2.bannerImagePath = none →
        ∀ op ∈ renderOps env2 assets2 opts2, op.isBannerOp = false) := by
  refine ⟨renderOps_bannerFree env assets opts (Or.inl hb), ?_, ?_, ?_, ?_, ?_⟩
  · intro p x y s h
    obtain ⟨h1, h2, h3⟩ := renderOps_circleImage env assets opts p x y s h
    rw [hb] at h2
    simp only [Bool.false_eq_true, if_false] at h2
    exact ⟨h1, h2, h3⟩
  · have hmem : DrawOp.text assets.profileData.name 60 200
        ("bold 36px " ++ opts.fontFamily) opts.textColor
        ∈ drawProfileInfo assets.profileData opts := by
      simp [drawProfileInfo, hb]
    exact List.mem_append.2 (Or.inl (List.mem_append.2 (Or.inl
      (List.mem_append.2 (Or.inr hmem)))))
  · intro hst
    have hmem : DrawOp.text assets.profileData.getFormattedFollowersCount 60 400
        ("bold 24px " ++ opts.fontFamily) opts.textColor
        ∈ drawStats assets.profileData opts := by
      simp [drawStats, hb]
    have hmem2 : DrawOp.text assets.profileData.getFormattedFollowersCount 60 400
        ("bold 24px " ++ opts.fontFamily) opts.textColor
        ∈ (if opts.showStats then drawStats assets.profileData opts else []) := by
      simp only [hst, if_true]
      exact hmem
    exact List.mem_append.2 (Or.inl (List.mem_append.2 (Or.inr hmem2)))
  · intro description
    rw [drawDescription, enum_text_opY,
      show descStartY opts = 500 from by simp [descStartY, hb]]
  · intro env2 assets2 opts2 hnone op hop
    exact renderOps_bannerFree env2 assets2 opts2 (Or.inr hnone) op hop

/-- Witness for amended C2: with `showBanner: false`, the name is drawn at
the fixed non-banner offset y = 200. -/
theorem renderOps_noBanner_spec_witness :
    DrawOp.text pdTest.name 60 200
        ("bold 36px " ++ (mergeOptions { showBanner := some false }).fontFamily)
        (mergeOptions { showBanner := some false }).textColor
      ∈ renderOps envNoImages { profileData := pdTest }
          (mergeOptions { showBanner := some false }) := by
  have h := renderOps_noBanner_spec envNoImages { profileData := pdTest }
    (mergeOptions { showBanner := some false }) rfl
  exact h.2.2.1

/-- An environment in which only the avatar bitmap loads. -/
def envAvatar : Env :=
  { images := fun p => if p = "a.jpg" then some ⟨100, 100⟩ else none,
    meas := fun _ => 0, now := "", cwd := ".", encodeOk := true }

/-- C2 counterexample: with default options (`showBanner` true) and no
banner bitmap, no banner band is painted, yet the avatar is drawn at the
banner-relative y = floor(630·0.4) − 60 = 192, not at the fixed non-banner
offset 60 the claim asserts. -/
theorem renderOps_noBannerBitmap_counterexample :
    ((renderOps envAvatar { profileData := pdTest, profileImagePath := some "a.jpg" }
        (mergeOptions {})).filter DrawOp.isBannerOp) = []
    ∧ DrawOp.circleImage "a.jpg" 60 192 120
        ∈ renderOps envAvatar { profileData := pdTest, profileImagePath := some "a.jpg" }
          (mergeOptions {})
    ∧ ((192 : ℚ) = 60 → False) := by
  refine ⟨?_, ?_, by norm_num⟩
  · have hfree := renderOps_bannerFree envAvatar
      { profileData := pdTest, profileImagePath := some "a.jpg" } (mergeOptions {})
      (Or.inr rfl)
    rw [List.filter_eq_nil_iff]
    intro a ha
    simp [hfree a ha]
  · have hy : (if (mergeOptions {}).showBanner
        then ((bannerBandHeight (mergeOptions {}) : ℤ) : ℚ) - 60 else 60) = 192 := by
      norm_num [mergeOptions, bannerBandHeight]
    have hmem : DrawOp.circleImage "a.jpg" 60 192 120
        ∈ drawProfileImage envAvatar "a.jpg" (mergeOptions {}) := by
      rw [drawProfileImage]
      rw [show envAvatar.images "a.jpg" = some ⟨100, 100⟩ from rfl]
      rw [hy]
      exact List.mem_cons_self _ _
    exact List.mem_append.2 (Or.inl (List.mem_append.2 (Or.inl (List.mem_append.2
      (Or.inl (List.mem_append.2 (Or.inr hmem)))))))

/-- C1: evaluating `generateCard` at a jpeg request shows the defect the
claim rules out: the render succeeds and the requested width/height are
reported, but `canvas.toBuffer()` is called with no MIME type, so the
written bytes are PNG-encoded while the result descriptor reports
`"JPEG"`. -/
theorem generateCard_jpeg_writes_png :
    (generateCard envNoImages { profileData := pdTest } { outputFormat := some "jpeg" }
        (some "card.jpg")).1.success = true
    ∧ ((generateCard envNoImages { profileData := pdTest } { outputFormat := some "jpeg" }
        (some "card.jpg")).2.map (fun pb => pb.2.encoding)) = ["png"]
    ∧ ((generateCard envNoImages { profileData := pdTest } { outputFormat := some "jpeg" }
        (some "card.jpg")).1.cardInfo.map CardInfo.format) = some "JPEG"
    ∧ ((generateCard envNoImages { profileData := pdTest } { outputFormat := some "jpeg" }
        (some "card.jpg")).1.cardInfo.map CardInfo.width) = some 1200
    ∧ ((generateCard envNoImages { profileData := pdTest } { outputFormat := some "jpeg" }
        (some "card.jpg")).1.cardInfo.map CardInfo.height) = some 630
    ∧ (mergeOptions { outputFormat := some "jpeg" }).outputFormat = "jpeg" := by
  refine ⟨rfl, rfl, ?_, rfl, rfl, rfl⟩
  rfl
